import Mathlib

set_option linter.unusedVariables false

/-!
Verification development for the Fusion2SCAD exporter.

The definitions below are a shallow embedding of the Python sources:

* `src/exporter/utils.py`      — unit constant, `sanitize_name`, `format_value`,
                                 `normal_to_rotation`, `get_rotation_matrix_from_axis`
* `src/profile_utils.py`       — curve approximation, duplicate-point removal,
                                 profile polygon extraction, `detect_shape_type`
* `src/exporter/analyzers.py`  — per-feature analyzers
* `src/exporter/core.py`       — `SCADExporter.process_timeline` (two passes and
                                 final boolean-tree assembly)

Python floats are modelled as exact rationals (`ℚ`); values produced by
transcendental functions (`math.sin`, `math.sqrt`, …) live in `ℝ`.  Python
strings are `String` (ASCII fragment); `str.isalnum`/`str.lower` are modelled by
the corresponding ASCII `Char` operations.  Host-API objects (features, bodies,
edges, profiles) are modelled as immutable records carrying exactly the fields
the sources read.
-/

/-- Conversion factor used throughout the sources (`CM_TO_MM = 10.0`). -/
def CM_TO_MM : ℚ := 10

/-! ## `src/exporter/utils.py` -/

/-- The `if sanitized and sanitized[0].isdigit(): sanitized = '_' + sanitized`
step of `sanitize_name`. -/
def prefixUnderscore (l : List Char) : List Char :=
  match l with
  | [] => l
  | c :: _ => if c.isDigit then '_' :: l else l

/-- Model of `sanitize_name` from `src/exporter/utils.py`, on the ASCII model of Python
strings (a `List Char`): replace every character that is not alphanumeric or an
underscore by an underscore, prefix an underscore if the result starts with a
digit, and lower-case the result. -/
def sanitize_name (name : List Char) : List Char :=
  (prefixUnderscore
    (name.map (fun c => if c.isAlphanum || c = '_' then c else '_'))).map Char.toLower

/-- A character allowed in a sanitized identifier: a lowercase letter, a digit,
or an underscore. -/
def isLowerAlnumUnd (c : Char) : Bool := c.isLower || c.isDigit || c = '_'

/-- Python's `round` (banker's rounding, ties to even), on rationals. -/
def pyRound (q : ℚ) : ℤ :=
  let f := ⌊q⌋
  let r := q - (f : ℚ)
  if r < 1/2 then f
  else if 1/2 < r then f + 1
  else if f % 2 = 0 then f else f + 1

/-- Python's `str` on an `int`. -/
def intStr (i : ℤ) : String :=
  if i < 0 then "-" ++ Nat.repr i.natAbs else Nat.repr i.natAbs

/-- Zero-pad a digit string on the left to 4 characters. -/
def pad4 (s : String) : String :=
  (List.replicate (4 - s.length) '0').asString ++ s

/-- Digits of `f"{v:.4f}"` for a non-negative scaled value `m = |round(v * 10^4)|`. -/
def fixed4Digits (m : ℕ) : String :=
  Nat.repr (m / 10000) ++ "." ++ pad4 (Nat.repr (m % 10000))

/-- Python's `f"{value:.4f}"`: fixed-point rendering with 4 decimals, rounding
ties to even.  (The `-0.0000` output Python produces for tiny negative values
cannot be reached from `format_value`, whose integer branch catches them.) -/
def fixed4 (v : ℚ) : String :=
  let n := pyRound (v * 10000)
  if n < 0 then "-" ++ fixed4Digits n.natAbs else fixed4Digits n.natAbs

/-- Python's `str.rstrip` for a single strip character. -/
def rstripChar (c : Char) (s : String) : String :=
  ((s.toList.reverse.dropWhile (fun d => d = c)).reverse).asString

/-- Model of `format_value` from `src/exporter/utils.py` (default precision 4):
values within `0.0001` of a whole number render as a bare integer, otherwise
as `f"{value:.4f}".rstrip('0').rstrip('.')`. -/
def format_value (value : ℚ) : String :=
  if |value - (pyRound value : ℚ)| < 0.0001 then intStr (pyRound value)
  else rstripChar '.' (rstripChar '0' (fixed4 value))

/-- The rational number denoted by the string `format_value v` emits: the
rounded integer in the first branch, the 4-decimal rounding of `v` in the
second (stripping trailing zeros does not change the denoted value). -/
def canonicalValue (v : ℚ) : ℚ :=
  if |v - (pyRound v : ℚ)| < 0.0001 then (pyRound v : ℚ)
  else (pyRound (v * 10000) : ℚ) / 10000

/-- Model of `math.degrees`. -/
noncomputable def degrees (x : ℝ) : ℝ := x * 180 / Real.pi

/-- Model of `math.atan2`. -/
noncomputable def pyAtan2 (y x : ℝ) : ℝ :=
  if 0 < x then Real.arctan (y / x)
  else if x < 0 ∧ 0 ≤ y then Real.arctan (y / x) + Real.pi
  else if x < 0 then Real.arctan (y / x) - Real.pi
  else if 0 < y then Real.pi / 2
  else if y < 0 then -(Real.pi / 2)
  else 0

/-- Model of `normal_to_rotation` from `src/exporter/utils.py`: convert a normal vector
to rotation angles `(rx, ry, rz)` in degrees; degenerate (near-zero) vectors
return `(0, 0, 0)` before any division by the norm happens. -/
noncomputable def normal_to_rotation (nx ny nz : ℝ) : ℝ × ℝ × ℝ :=
  let length := Real.sqrt (nx * nx + ny * ny + nz * nz)
  if length < 0.0001 then (0, 0, 0)
  else
    let nx2 := nx / length
    let ny2 := ny / length
    let nz2 := nz / length
    let ry := degrees (Real.arcsin (-nx2))
    let rx := degrees (pyAtan2 ny2 nz2)
    (rx, ry, 0)

/-- Euclidean normalization of a 3-vector (`Vector3D.normalize`). -/
noncomputable def vnormalize (v : ℝ × ℝ × ℝ) : ℝ × ℝ × ℝ :=
  let l := Real.sqrt (v.1 * v.1 + v.2.1 * v.2.1 + v.2.2 * v.2.2)
  (v.1 / l, v.2.1 / l, v.2.2 / l)

/-- Cross product of 3-vectors (`Vector3D.crossProduct`). -/
noncomputable def vcross (a b : ℝ × ℝ × ℝ) : ℝ × ℝ × ℝ :=
  (a.2.1 * b.2.2 - a.2.2 * b.2.1, a.2.2 * b.1 - a.1 * b.2.2, a.1 * b.2.1 - a.2.1 * b.1)

/-- Model of `get_rotation_matrix_from_axis` from `src/exporter/utils.py`. -/
noncomputable def get_rotation_matrix_from_axis (axis : ℚ × ℚ × ℚ) : List (List ℝ) :=
  let z := vnormalize ((axis.1 : ℝ), (axis.2.1 : ℝ), (axis.2.2 : ℝ))
  let ref : ℝ × ℝ × ℝ := if |z.1| < 0.9 then (1, 0, 0) else (0, 1, 0)
  let x := vnormalize (vcross ref z)
  let y := vnormalize (vcross z x)
  [[x.1, y.1, z.1, 0], [x.2.1, y.2.1, z.2.1, 0], [x.2.2, y.2.2, z.2.2, 0], [0, 0, 0, 1]]

/-! ## Profile and sketch data model (host API objects read by the sources) -/

/-- A profile's 3D bounding box; the sources only read the x/y components of
`minPoint`/`maxPoint` (values in cm). -/
structure BBox where
  minPoint : ℚ × ℚ
  maxPoint : ℚ × ℚ

/-- Result of `transform.getAsCoordinateSystem()`. -/
structure CoordSystem where
  origin : ℚ × ℚ × ℚ
  xAxis : ℚ × ℚ × ℚ
  yAxis : ℚ × ℚ × ℚ
  zAxis : ℚ × ℚ × ℚ

/-- The parts of a `Sketch` the analyzers read. -/
structure SketchModel where
  origin : ℚ × ℚ × ℚ
  transform : Option CoordSystem

/-- The sketch entity behind a profile curve (`curve.sketchEntity`), carrying
the geometric fields the sources read (coordinates in cm, angles in radians).
A spline carries its evaluator's parameter extents and point query. -/
inductive SketchEnt where
  | line (p1 p2 : ℚ × ℚ)
  | circle (center : ℚ × ℚ) (radius : ℚ)
  | arc (center : ℚ × ℚ) (radius : ℚ) (startAngle endAngle : ℚ)
  | ellipse (center : ℚ × ℚ) (majorRadius minorRadius : ℚ)
  | spline (extents : Option (ℚ × ℚ)) (evalAt : ℚ → Option (ℚ × ℚ))
  | other

/-- A `ProfileLoop`: `isOuter` flag plus its `profileCurves`' sketch entities. -/
structure ProfileLoop where
  isOuter : Bool
  curves : List SketchEnt

/-- A `Profile`: its loops, bounding box, and parent sketch. -/
structure Profile where
  loops : List ProfileLoop
  boundingBox : BBox
  parentSketch : Option SketchModel

def isLine : SketchEnt → Bool
  | .line _ _ => true
  | _ => false

def isArc : SketchEnt → Bool
  | .arc _ _ _ _ => true
  | _ => false

/-- Model of `arc.radius` as read on the entities collected into the `arcs` list. -/
def arcRadius : SketchEnt → ℚ
  | .arc _ r _ _ => r
  | .circle _ r => r
  | _ => 0

/-! ## `src/profile_utils.py` -/

/-- Model of `approximate_arc_points`: sample `segments + 1` points along an arc,
normalizing a negative angle span by adding a full turn. -/
noncomputable def approximate_arc_points (cx cy r sa ea : ℝ) (segments : ℕ) :
    List (ℝ × ℝ) :=
  let span := ea - sa
  let span2 := if span < 0 then span + 2 * Real.pi else span
  (List.range (segments + 1)).map (fun i =>
    let t : ℝ := (i : ℝ) / (segments : ℝ)
    let angle := sa + t * span2
    (cx + r * Real.cos angle, cy + r * Real.sin angle))

/-- Model of `approximate_ellipse_points`. -/
noncomputable def approximate_ellipse_points (cx cy major minor rot : ℝ)
    (segments : ℕ) : List (ℝ × ℝ) :=
  (List.range segments).map (fun i =>
    let t : ℝ := 2 * Real.pi * (i : ℝ) / (segments : ℝ)
    let px := major * Real.cos t
    let py := minor * Real.sin t
    (cx + px * Real.cos rot - py * Real.sin rot, cy + px * Real.sin rot + py * Real.cos rot))

/-- Model of `approximate_spline_points`: sample the spline's evaluator across its
parameter extents, skipping failed queries, converting cm to mm. -/
def approximate_spline_points (extents : Option (ℚ × ℚ))
    (evalAt : ℚ → Option (ℚ × ℚ)) (segments : ℕ) : List (ℚ × ℚ) :=
  match extents with
  | none => []
  | some (sp, ep) =>
    let span := ep - sp
    (List.range (segments + 1)).filterMap (fun i =>
      (evalAt (sp + ((i : ℚ) / (segments : ℚ)) * span)).map
        (fun p => (p.1 * CM_TO_MM, p.2 * CM_TO_MM)))

/-- Loop of `remove_duplicate_points`: `lastKept` is `cleaned[-1]`; a point is
appended exactly when its Euclidean distance from the last kept point exceeds
the tolerance. -/
noncomputable def rdpAux (tolerance : ℝ) (lastKept : ℝ × ℝ) :
    List (ℝ × ℝ) → List (ℝ × ℝ)
  | [] => []
  | pt :: rest =>
    let dist := Real.sqrt ((pt.1 - lastKept.1) ^ 2 + (pt.2 - lastKept.2) ^ 2)
    if dist > tolerance then pt :: rdpAux tolerance pt rest
    else rdpAux tolerance lastKept rest

/-- Model of `remove_duplicate_points` from `src/profile_utils.py` (default tolerance
`0.001`): keep the first point, then drop every point within tolerance of the
last kept point. -/
noncomputable def remove_duplicate_points (tolerance : ℝ) :
    List (ℝ × ℝ) → List (ℝ × ℝ)
  | [] => []
  | p :: ps => p :: rdpAux tolerance p ps

noncomputable def qpt (p : ℚ × ℚ) : ℝ × ℝ := ((p.1 : ℝ), (p.2 : ℝ))

/-- The per-curve point run of the loop body of `extract_profile_polygon`:
lines contribute their start point, arcs/circles their sampled points without
the last one, ellipses all sampled points, splines their sampled points
without the last one, anything else nothing.  (cm → mm conversion applied as
in the source.) -/
noncomputable def curveRunPoints (arc_segments : ℕ) : SketchEnt → List (ℝ × ℝ)
  | .line p1 _ => [qpt (p1.1 * CM_TO_MM, p1.2 * CM_TO_MM)]
  | .arc c r sa ea =>
    (approximate_arc_points ((c.1 * CM_TO_MM : ℚ) : ℝ) ((c.2 * CM_TO_MM : ℚ) : ℝ)
      ((r * CM_TO_MM : ℚ) : ℝ) (sa : ℝ) (ea : ℝ) arc_segments).dropLast
  | .circle c r =>
    (approximate_arc_points ((c.1 * CM_TO_MM : ℚ) : ℝ) ((c.2 * CM_TO_MM : ℚ) : ℝ)
      ((r * CM_TO_MM : ℚ) : ℝ) 0 (2 * Real.pi) (arc_segments * 2)).dropLast
  | .ellipse c major minor =>
    approximate_ellipse_points ((c.1 * CM_TO_MM : ℚ) : ℝ) ((c.2 * CM_TO_MM : ℚ) : ℝ)
      ((major * CM_TO_MM : ℚ) : ℝ) ((minor * CM_TO_MM : ℚ) : ℝ) 0 (arc_segments * 2)
  | .spline ext ev =>
    ((approximate_spline_points ext ev (arc_segments * 2)).map qpt).dropLast
  | .other => []

/-- Result dictionary of `extract_profile_polygon`. -/
structure PolyResult where
  outer : List (ℝ × ℝ)
  holes : List (List (ℝ × ℝ))

/-- Loop body of `extract_profile_polygon`: concatenate the per-curve point
runs of one loop, remove duplicates once on the concatenation, then store the
cleaned loop as the outer boundary or append it to the holes. -/
noncomputable def extractLoopStep (arc_segments : ℕ) (result : PolyResult)
    (loop : ProfileLoop) : PolyResult :=
  let points := (loop.curves.map (curveRunPoints arc_segments)).flatten
  let cleaned := remove_duplicate_points 0.001 points
  if loop.isOuter then { result with outer := cleaned }
  else { result with holes := result.holes ++ [cleaned] }

/-- Model of `extract_profile_polygon` from `src/profile_utils.py`. -/
noncomputable def extract_profile_polygon (profile : Profile)
    (arc_segments : ℕ) : PolyResult :=
  profile.loops.foldl (extractLoopStep arc_segments) ⟨[], []⟩

/-- The cleaned point list `extract_profile_polygon` computes for one loop:
duplicate removal applied exactly once, to the concatenation of the per-curve
point runs. -/
noncomputable def loopCleanedPoints (arc_segments : ℕ) (loop : ProfileLoop) :
    List (ℝ × ℝ) :=
  remove_duplicate_points 0.001 ((loop.curves.map (curveRunPoints arc_segments)).flatten)

/-- Python's `max` on a non-empty list (`0` on `[]`, unreachable here). -/
def listMax : List ℚ → ℚ
  | [] => 0
  | x :: xs => xs.foldl max x

/-- Python's `min` on a non-empty list (`0` on `[]`, unreachable here). -/
def listMin : List ℚ → ℚ
  | [] => 0
  | x :: xs => xs.foldl min x

/-- Result dictionary of `detect_shape_type`, as a tagged variant. -/
inductive ShapeResult where
  | circle (center : ℚ × ℚ) (radius : ℚ)
  | rectangle (center : ℚ × ℚ) (width height : ℚ)
  | rounded_rect (center : ℚ × ℚ) (width height rounding : ℚ)
  | polygon
  deriving DecidableEq

def bboxCenter (b : BBox) : ℚ × ℚ :=
  ((b.minPoint.1 + b.maxPoint.1) / 2 * CM_TO_MM,
   (b.minPoint.2 + b.maxPoint.2) / 2 * CM_TO_MM)

def bboxWidth (b : BBox) : ℚ := (b.maxPoint.1 - b.minPoint.1) * CM_TO_MM

def bboxHeight (b : BBox) : ℚ := (b.maxPoint.2 - b.minPoint.2) * CM_TO_MM

/-- Body of `detect_shape_type` once the profile has exactly one loop: a single
full circle; else 4 curves all lines → rectangle from the bounding box; else
8 curves splitting into 4 lines and 4 arcs whose radii (in mm) spread less
than `0.01` → rounded rectangle with rounding `radii[0]`; else polygon. -/
def detectSingleLoop (profile : Profile) (curves : List SketchEnt) : ShapeResult :=
  match curves with
  | [SketchEnt.circle c r] => .circle (c.1 * CM_TO_MM, c.2 * CM_TO_MM) (r * CM_TO_MM)
  | _ =>
    if curves.length = 4 ∧ curves.all isLine = true then
      .rectangle (bboxCenter profile.boundingBox) (bboxWidth profile.boundingBox)
        (bboxHeight profile.boundingBox)
    else if curves.length = 8 then
      let lines := curves.filter isLine
      let arcs := curves.filter isArc
      if lines.length = 4 ∧ arcs.length = 4 then
        let radii := arcs.map (fun e => arcRadius e * CM_TO_MM)
        if listMax radii - listMin radii < 0.01 then
          .rounded_rect (bboxCenter profile.boundingBox) (bboxWidth profile.boundingBox)
            (bboxHeight profile.boundingBox) (radii.headD 0)
        else .polygon
      else .polygon
    else .polygon

/-- Model of `detect_shape_type` from `src/profile_utils.py`: profiles without exactly
one loop are polygons; a single loop is classified by `detectSingleLoop`. -/
def detect_shape_type (profile : Profile) : ShapeResult :=
  match profile.loops with
  | [loop] => detectSingleLoop profile loop.curves
  | _ => .polygon

/-! ## `src/exporter/analyzers.py` -/

/-- Model of `adsk.fusion.FeatureOperations` values the sources compare against. -/
inductive FeatureOperation where
  | newBody
  | join
  | cut
  | intersect
  | newComponent
  deriving DecidableEq

/-- Model of `get_operation_type`: map the host operation enum to an OpenSCAD-side
string; the dictionary lookup defaults to `'union'` for unmapped values. -/
def get_operation_type (op : FeatureOperation) : String :=
  match op with
  | .newBody => "new"
  | .join => "union"
  | .cut => "difference"
  | .intersect => "intersection"
  | .newComponent => "union"

/-- Result dictionary of `analyze_profile`; `radius`/`rounding` model keys
that are only present in the circle / rounded-rect branches. -/
structure ProfileInfo where
  shape : String
  bbox : ℚ × ℚ
  center : ℚ × ℚ
  is_circle : Bool
  is_rectangle : Bool
  is_rounded_rect : Bool
  radius : Option ℚ
  rounding : Option ℚ
  deriving DecidableEq

/-- Model of `analyze_profile` from `src/exporter/analyzers.py`: bounding-box data plus
the same single-loop shape classification as `detect_shape_type`, recorded as
flags and a `shape` string. -/
def analyze_profile (profile : Profile) : ProfileInfo :=
  let base : ProfileInfo :=
    { shape := "polygon",
      bbox := (bboxWidth profile.boundingBox, bboxHeight profile.boundingBox),
      center := bboxCenter profile.boundingBox,
      is_circle := false, is_rectangle := false, is_rounded_rect := false,
      radius := none, rounding := none }
  match profile.loops with
  | [loop] =>
    (match loop.curves with
     | [SketchEnt.circle _ r] =>
       { base with is_circle := true, shape := "circle", radius := some (r * CM_TO_MM) }
     | _ =>
       if loop.curves.length = 4 ∧ loop.curves.all isLine = true then
         { base with is_rectangle := true, shape := "rectangle" }
       else if loop.curves.length = 8 then
         let lines := loop.curves.filter isLine
         let arcs := loop.curves.filter isArc
         if lines.length = 4 ∧ arcs.length = 4 then
           let radii := arcs.map (fun e => arcRadius e * CM_TO_MM)
           if listMax radii - listMin radii < 0.01 then
             { base with
               is_rounded_rect := true
               shape := "rounded_rect"
               rounding := some (radii.headD 0) }
           else base
         else base
       else base)
  | _ => base

/-- A `BRepBody`: the sources read its (display) `name` and its `entityToken`
(a host-mutable low-level handle). -/
structure Body where
  name : String
  entityToken : String
  deriving DecidableEq

/-- Extent definitions the sources `isinstance`-check. -/
inductive ExtentDefinition where
  | distance (value : ℚ)
  | throughAll
  | angle (value : ℚ)
  | otherExtent
  deriving DecidableEq

/-- Value of `feature.profile`: either a single `Profile` or a collection. -/
inductive ProfilesValue where
  | single (p : Profile)
  | collection (ps : List Profile)

structure ExtrudeFeature where
  operation : FeatureOperation
  extentOne : ExtentDefinition
  extentTwo : Option ExtentDefinition
  taperAngleOne : Option ℚ
  profile : ProfilesValue
  bodies : List Body

structure RevolveFeature where
  operation : FeatureOperation
  extentDefinition : ExtentDefinition
  profile : ProfilesValue
  bodies : List Body

inductive SurfaceGeometry where
  | cylinder (origin : ℚ × ℚ × ℚ) (axis : ℚ × ℚ × ℚ)
  | otherSurface

structure BRepFace where
  geometry : SurfaceGeometry

structure HoleFeature where
  holeDiameter : Option ℚ
  extentDefinition : ExtentDefinition
  position : Option (ℚ × ℚ × ℚ)
  faces : List BRepFace

structure BRepEdge where
  body : Option Body

inductive FilletEdgeSet where
  | constantRadius (radius : ℚ) (edges : List BRepEdge)
  | otherEdgeSet

structure FilletFeature where
  edgeSets : List FilletEdgeSet

inductive ChamferEdgeSet where
  | equalDistance (distance : ℚ) (edges : List BRepEdge)
  | otherEdgeSet

structure ChamferFeature where
  edgeSets : List ChamferEdgeSet

/-- Model of `profiles.item(0)` with the `isinstance` shortcut: the first profile of a
feature's `profile` value; `none` models the exception on an empty collection
(caught by the surrounding `except` in the source). -/
def profilesFirst : ProfilesValue → Option Profile
  | .single p => some p
  | .collection [] => none
  | .collection (p :: _) => some p

/-- Canonical-plane classification of a normal vector (tolerance `0.001`),
from the plane block of `analyze_extrude_feature`. -/
def sketchPlaneOf (n : ℚ × ℚ × ℚ) : String :=
  let tolerance : ℚ := 0.001
  if |n.2.2 - 1| < tolerance ∨ |n.2.2 + 1| < tolerance then "XY"
  else if |n.2.1 - 1| < tolerance ∨ |n.2.1 + 1| < tolerance then "XZ"
  else if |n.1 - 1| < tolerance ∨ |n.1 + 1| < tolerance then "YZ"
  else "CUSTOM"

/-- The fields of the `analyze_extrude_feature` result dictionary set by the
sketch-plane block (defaults when the block's lookups fail). -/
structure PlaneInfo where
  plane_origin : ℚ × ℚ × ℚ
  plane_normal : ℚ × ℚ × ℚ
  sketch_plane : String
  sketch_transform : Option CoordSystem

/-- Sketch-plane block of `analyze_extrude_feature`: resolve the first
profile's parent sketch, record its origin (mm), and classify the transform's
z-axis; every failing lookup leaves the defaults in place. -/
def extrudePlaneInfo (pv : ProfilesValue) : PlaneInfo :=
  match profilesFirst pv with
  | none => ⟨(0, 0, 0), (0, 0, 1), "XY", none⟩
  | some p =>
    match p.parentSketch with
    | none => ⟨(0, 0, 0), (0, 0, 1), "XY", none⟩
    | some sk =>
      let origin := (sk.origin.1 * CM_TO_MM, sk.origin.2.1 * CM_TO_MM,
        sk.origin.2.2 * CM_TO_MM)
      match sk.transform with
      | none => ⟨origin, (0, 0, 1), "XY", none⟩
      | some cs => ⟨origin, cs.zAxis, sketchPlaneOf cs.zAxis, some cs⟩

/-- Result dictionary of `analyze_extrude_feature` (the `rotation` key is
initialized to `None` and never written, so it is omitted). -/
structure ExtrudeInfo where
  operation : String
  height : Option ℚ
  profiles : List ProfileInfo
  is_symmetric : Bool
  taper_angle : ℝ
  sketch_plane : String
  plane_origin : ℚ × ℚ × ℚ
  plane_normal : ℚ × ℚ × ℚ
  sketch_transform : Option CoordSystem

/-- Model of `analyze_extrude_feature` from `src/exporter/analyzers.py`. -/
noncomputable def analyze_extrude_feature (feature : ExtrudeFeature) : ExtrudeInfo :=
  let plane := extrudePlaneInfo feature.profile
  { operation := get_operation_type feature.operation,
    height := (match feature.extentOne with
      | .distance d => some (d * CM_TO_MM)
      | _ => none),
    profiles := (match feature.profile with
      | .single p => [analyze_profile p]
      | .collection ps => ps.map analyze_profile),
    is_symmetric := feature.extentTwo.isSome,
    taper_angle := (match feature.taperAngleOne with
      | some v => (v : ℝ) * 180 / Real.pi
      | none => 0),
    sketch_plane := plane.sketch_plane,
    plane_origin := plane.plane_origin,
    plane_normal := plane.plane_normal,
    sketch_transform := plane.sketch_transform }

/-- Result dictionary of `analyze_revolve_feature`. -/
structure RevolveInfo where
  operation : String
  angle : ℝ
  profiles : List ProfileInfo

/-- Model of `analyze_revolve_feature` from `src/exporter/analyzers.py`. -/
noncomputable def analyze_revolve_feature (feature : RevolveFeature) : RevolveInfo :=
  { operation := get_operation_type feature.operation,
    angle := (match feature.extentDefinition with
      | .angle v => (v : ℝ) * 180 / Real.pi
      | _ => 360),
    profiles := (match feature.profile with
      | .single p => [analyze_profile p]
      | .collection ps => ps.map analyze_profile) }

/-- Result dictionary of `analyze_hole_feature`. -/
structure HoleInfo where
  diameter : ℚ
  depth : ℚ
  positions : List (ℚ × ℚ × ℚ)
  matrix : Option (List (List ℝ))

/-- Model of `analyze_hole_feature` from `src/exporter/analyzers.py`: diameter and depth
(mm; through-all maps to 200, default 50), start position from the feature or
the first cylindrical face, rotation matrix from that face's axis. -/
noncomputable def analyze_hole_feature (feature : HoleFeature) : HoleInfo :=
  let diameter := match feature.holeDiameter with
    | some v => v * CM_TO_MM
    | none => 0
  let depth := match feature.extentDefinition with
    | .distance d => d * CM_TO_MM
    | .throughAll => 200
    | _ => 50
  let startPos0 := feature.position.map
    (fun p => (p.1 * CM_TO_MM, p.2.1 * CM_TO_MM, p.2.2 * CM_TO_MM))
  let cyl := feature.faces.findSome? (fun f => match f.geometry with
    | .cylinder o a => some (o, a)
    | .otherSurface => none)
  let startPos := match startPos0, cyl with
    | some p, _ => some p
    | none, some (o, _) => some (o.1 * CM_TO_MM, o.2.1 * CM_TO_MM, o.2.2 * CM_TO_MM)
    | none, none => none
  { diameter := diameter, depth := depth,
    positions := (match startPos with | some p => [p] | none => []),
    matrix := cyl.map (fun oa => get_rotation_matrix_from_axis oa.2) }

/-- Python `set.add` on an insertion-ordered list model of a set of strings. -/
def setAdd (s : List String) (x : String) : List String :=
  if x ∈ s then s else s ++ [x]

/-- Result dictionary of `analyze_fillet_feature`.  Its keys are exactly
`type`, `radius`, `edges` and `affected_bodies` — there is no
`affected_body_names` key.  `edges` is initialized to `[]` and never filled. -/
structure FilletInfo where
  radius : ℚ
  edges : List Unit
  affected_bodies : List String
  deriving DecidableEq

/-- Model of `analyze_fillet_feature` from `src/exporter/analyzers.py`: radius from the
first edge set if it is a constant-radius set, and the **entity tokens** of
the bodies of that edge set's edges collected into `affected_bodies`. -/
def analyze_fillet_feature (feature : FilletFeature) : FilletInfo :=
  match feature.edgeSets with
  | FilletEdgeSet.constantRadius r edges :: _ =>
    { radius := r * CM_TO_MM, edges := [],
      affected_bodies := edges.foldl (fun s e => match e.body with
        | some b => setAdd s b.entityToken
        | none => s) [] }
  | _ => { radius := 0, edges := [], affected_bodies := [] }

/-- Result dictionary of `analyze_chamfer_feature` (keys `type`, `distance`,
`affected_bodies`; no `affected_body_names` key). -/
structure ChamferInfo where
  distance : ℚ
  affected_bodies : List String
  deriving DecidableEq

/-- Model of `analyze_chamfer_feature` from `src/exporter/analyzers.py`. -/
def analyze_chamfer_feature (feature : ChamferFeature) : ChamferInfo :=
  match feature.edgeSets with
  | ChamferEdgeSet.equalDistance d edges :: _ =>
    { distance := d * CM_TO_MM,
      affected_bodies := edges.foldl (fun s e => match e.body with
        | some b => setAdd s b.entityToken
        | none => s) [] }
  | _ => { distance := 0, affected_bodies := [] }

/-! ## `src/exporter/core.py` — `process_timeline` -/

/-- One `body_modifiers` entry. -/
structure Modifiers where
  rounding : ℚ
  chamfer : ℚ
  rounding_edges : List String
  chamfer_edges : List String
  deriving DecidableEq

/-- The entry created when a body is first seen (all zeros / empty sets). -/
def defaultModifiers : Modifiers := ⟨0, 0, [], []⟩

/-- Model of `timeline.item(i).entity`, dispatched by `isinstance`. -/
inductive TimelineEntity where
  | extrude (f : ExtrudeFeature)
  | revolve (f : RevolveFeature)
  | hole (f : HoleFeature)
  | fillet (f : FilletFeature)
  | chamfer (f : ChamferFeature)
  | sketch
  | otherEntity

/-- A timeline item: its name and its (possibly `None`) entity. -/
structure TimelineItem where
  name : String
  entity : Option TimelineEntity

/-- One element of `features_data` (the unused `entity` component is omitted). -/
inductive FeatureData where
  | extrude (name : String) (info : ExtrudeInfo)
  | revolve (name : String) (info : RevolveInfo)
  | hole (name : String) (info : HoleInfo)

/-- Lookup in an insertion-ordered association-list model of a Python dict. -/
def alGet {α β : Type} [DecidableEq α] (al : List (α × β)) (k : α) : Option β :=
  (al.find? (fun kv => kv.1 = k)).map (fun kv => kv.2)

/-- Keyed store in an insertion-ordered association-list model of a dict. -/
def alSet {α β : Type} [DecidableEq α] (al : List (α × β)) (k : α) (v : β) :
    List (α × β) :=
  if (al.find? (fun kv => kv.1 = k)).isSome then
    al.map (fun kv => if kv.1 = k then (k, v) else kv)
  else al ++ [(k, v)]

/-- State accumulated by pass 1 of `process_timeline`: the error comments
appended to `scad_code`, `features_data`, `feature_to_body_name`, and
`body_modifiers`. -/
structure Pass1State where
  errors : List String
  feats : List FeatureData
  featureToBodyName : List (ℕ × String)
  bodyModifiers : List (String × Modifiers)

/-- Body-registration loop of the extrude/revolve branches of pass 1: map the
feature index to the body's name (the last body wins) and create a default
`body_modifiers` entry for unseen body names. -/
def registerBody (st : Pass1State) (idx : ℕ) (b : Body) : Pass1State :=
  { st with
    featureToBodyName := alSet st.featureToBodyName idx b.name,
    bodyModifiers := (match alGet st.bodyModifiers b.name with
      | some _ => st.bodyModifiers
      | none => st.bodyModifiers ++ [(b.name, defaultModifiers)]) }

/-- One iteration of pass 1 of `process_timeline`.

For the Fillet/Chamfer branches: the source (core.py line 140/160) iterates
`info['affected_body_names']`, but `analyze_fillet_feature` /
`analyze_chamfer_feature` store the body identities under the key
`affected_bodies` and never define `affected_body_names`, so the subscript
raises `KeyError('affected_body_names')`; the per-feature `except` records
`// Error analyzing {name}: {str(e)}` (with `str` of a `KeyError` being the
quoted key) and the modifier-merge code below the subscript never runs. -/
noncomputable def pass1Step (st : Pass1State) (item : TimelineItem) : Pass1State :=
  match item.entity with
  | none => st
  | some ent =>
    match ent with
    | .extrude f =>
      let info := analyze_extrude_feature f
      let st1 := { st with feats := st.feats ++ [FeatureData.extrude item.name info] }
      let idx := st1.feats.length - 1
      f.bodies.foldl (fun s b => registerBody s idx b) st1
    | .revolve f =>
      let info := analyze_revolve_feature f
      let st1 := { st with feats := st.feats ++ [FeatureData.revolve item.name info] }
      let idx := st1.feats.length - 1
      f.bodies.foldl (fun s b => registerBody s idx b) st1
    | .hole f =>
      { st with feats := st.feats ++ [FeatureData.hole item.name (analyze_hole_feature f)] }
    | .fillet f =>
      let _info := analyze_fillet_feature f
      { st with errors := st.errors ++
          ["// Error analyzing " ++ item.name ++ ": \x27affected_body_names\x27"] }
    | .chamfer f =>
      let _info := analyze_chamfer_feature f
      { st with errors := st.errors ++
          ["// Error analyzing " ++ item.name ++ ": \x27affected_body_names\x27"] }
    | .sketch => st
    | .otherEntity => st

/-- Pass 1 of `process_timeline`. -/
noncomputable def pass1 (timeline : List TimelineItem) : Pass1State :=
  timeline.foldl pass1Step ⟨[], [], [], []⟩

/-- Modelled from the spec: `src/exporter/generators.py` is imported by
`core.py` but absent from the sources; §4.6 only requires the Script Emitter
to render each feature's shape primitive as code lines.  The fragment text is
irrelevant to every claim, so one line naming the feature stands in for it. -/
def generate_extrude_scad (info : ExtrudeInfo) (feature_name : String)
    (rounding chamfer : ℚ) (rounding_edges chamfer_edges : List String) :
    List String :=
  ["extrude " ++ feature_name]

/-- Modelled from the spec: see `generate_extrude_scad`. -/
def generate_revolve_scad (info : RevolveInfo) (feature_name : String) : List String :=
  ["revolve " ++ feature_name]

/-- Modelled from the spec: see `generate_extrude_scad`. -/
def generate_hole_scad (info : HoleInfo) (feature_name : String) : List String :=
  ["hole " ++ feature_name]

/-- The `current_ops` dictionary of pass 2. -/
structure Buckets where
  union : List String
  difference : List String
  intersection : List String
  deriving DecidableEq

/-- The modifier lookup at the top of each pass-2 iteration:
`body_name = feature_to_body_name.get(idx)` followed by
`modifiers = body_modifiers.get(body_name, default_modifiers)` (a `None` body
name, as for holes, also yields the defaults). -/
def pass2ModifiersAt (featureToBodyName : List (ℕ × String))
    (bodyModifiers : List (String × Modifiers)) (idx : ℕ) : Modifiers :=
  match alGet featureToBodyName idx with
  | some bn => (alGet bodyModifiers bn).getD defaultModifiers
  | none => defaultModifiers

/-- The code fragment pass 2 generates for an extrude at feature index `idx`:
`generate_extrude_scad` applied with the body's accumulated modifiers. -/
def extrudeFragment (featureToBodyName : List (ℕ × String))
    (bodyModifiers : List (String × Modifiers)) (idx : ℕ) (name : String)
    (info : ExtrudeInfo) : List String :=
  generate_extrude_scad info name
    (pass2ModifiersAt featureToBodyName bodyModifiers idx).rounding
    (pass2ModifiersAt featureToBodyName bodyModifiers idx).chamfer
    (pass2ModifiersAt featureToBodyName bodyModifiers idx).rounding_edges
    (pass2ModifiersAt featureToBodyName bodyModifiers idx).chamfer_edges

/-- One iteration of pass 2 of `process_timeline`: look up the feature's body
name and that body's accumulated modifiers (defaults if absent, including for
the `None` body name of holes), generate the code fragment, and extend the
bucket selected by the feature's operation kind. -/
def pass2Step (featureToBodyName : List (ℕ × String))
    (bodyModifiers : List (String × Modifiers)) (ops : Buckets)
    (ifd : ℕ × FeatureData) : Buckets :=
  match ifd.2 with
  | .extrude name info =>
    let code := extrudeFragment featureToBodyName bodyModifiers ifd.1 name info
    if info.operation = "new" ∨ info.operation = "union" then
      { ops with union := ops.union ++ code }
    else if info.operation = "difference" then
      { ops with difference := ops.difference ++ code }
    else if info.operation = "intersection" then
      { ops with intersection := ops.intersection ++ code }
    else ops
  | .revolve name info => { ops with union := ops.union ++ generate_revolve_scad info name }
  | .hole name info => { ops with difference := ops.difference ++ generate_hole_scad info name }

/-- Pass 2 of `process_timeline` (the generators of this model are total, so
the per-feature `except` of pass 2 never fires and no comment is appended). -/
def pass2Buckets (feats : List FeatureData)
    (featureToBodyName : List (ℕ × String))
    (bodyModifiers : List (String × Modifiers)) : Buckets :=
  feats.enum.foldl (pass2Step featureToBodyName bodyModifiers) ⟨[], [], []⟩

/-- Final boolean-tree assembly of `process_timeline` (core.py lines 229-247):
a non-empty difference bucket yields a `difference` block holding the union
bucket (wrapped in `union`, only if non-empty) and then the difference
fragments; otherwise a non-empty union bucket is wrapped in a `union` block
exactly when it has more than 3 fragments.  The intersection bucket is never
read. -/
def combineOps (ops : Buckets) : List String :=
  if ops.difference ≠ [] then
    ["difference() \x7b"]
      ++ (if ops.union ≠ [] then
            ["    union() \x7b"] ++ ops.union.map (fun line => "        " ++ line)
              ++ ["    \x7d"]
          else [])
      ++ ops.difference.map (fun line => "    " ++ line)
      ++ ["\x7d"]
  else if ops.union ≠ [] then
    if ops.union.length > 3 then
      ["union() \x7b"] ++ ops.union.map (fun line => "    " ++ line) ++ ["\x7d"]
    else ops.union
  else []

/-- Model of `SCADExporter.process_timeline`: pass 1 error comments, then (pass 2 having
appended no comments on this model) the assembled boolean tree. -/
noncomputable def process_timeline (timeline : List TimelineItem) : List String :=
  let st := pass1 timeline
  st.errors ++ combineOps (pass2Buckets st.feats st.featureToBodyName st.bodyModifiers)

/-! ## Concrete inputs used by the theorems -/

/-- A body named `Body1` whose host entity token is `TOKEN-1`. -/
def bodyOne : Body := ⟨"Body1", "TOKEN-1"⟩

/-- Four straight edges of a 10 mm × 10 mm square centered at the origin
(coordinates in cm, as the host stores them). -/
def squareCurves : List SketchEnt :=
  [SketchEnt.line (-1/2, -1/2) (1/2, -1/2),
   SketchEnt.line (1/2, -1/2) (1/2, 1/2),
   SketchEnt.line (1/2, 1/2) (-1/2, 1/2),
   SketchEnt.line (-1/2, 1/2) (-1/2, -1/2)]

/-- Single-loop profile of that square. -/
def squareProfile : Profile :=
  { loops := [⟨true, squareCurves⟩],
    boundingBox := ⟨(-1/2, -1/2), (1/2, 1/2)⟩,
    parentSketch := none }

/-- An extrude (new body) of the square, producing `Body1`. -/
def extrudeBox : ExtrudeFeature :=
  { operation := FeatureOperation.newBody,
    extentOne := ExtentDefinition.distance 1,
    extentTwo := none, taperAngleOne := none,
    profile := ProfilesValue.single squareProfile,
    bodies := [bodyOne] }

/-- A join extrude of the same square onto `Body1`. -/
def extrudeBox3 : ExtrudeFeature :=
  { extrudeBox with operation := FeatureOperation.join }

/-- An edge lying on `Body1`. -/
def filletEdge : BRepEdge := ⟨some bodyOne⟩

/-- A constant-radius fillet of 3 mm (0.3 cm) touching `Body1`. -/
def filletRadius3 : FilletFeature :=
  ⟨[FilletEdgeSet.constantRadius (3/10) [filletEdge]]⟩

/-- A constant-radius fillet of 1 mm (0.1 cm) touching `Body1`. -/
def filletRadius1 : FilletFeature :=
  ⟨[FilletEdgeSet.constantRadius (1/10) [filletEdge]]⟩

def itemBox1 : TimelineItem := ⟨"Box1", some (TimelineEntity.extrude extrudeBox)⟩

def itemBox3 : TimelineItem := ⟨"Box3", some (TimelineEntity.extrude extrudeBox3)⟩

def itemFillet3 : TimelineItem := ⟨"Fillet1", some (TimelineEntity.fillet filletRadius3)⟩

def itemFillet1 : TimelineItem := ⟨"Fillet2", some (TimelineEntity.fillet filletRadius1)⟩

/-- Timeline: extrude producing `Body1`, then a 3 mm fillet on it. -/
def timelineFillet : List TimelineItem := [itemBox1, itemFillet3]

/-- Timeline: extrude producing `Body1`, a 1 mm fillet, then a 3 mm fillet. -/
def timelineTwoFillets : List TimelineItem := [itemBox1, itemFillet1, itemFillet3]

/-- Timeline of three features whose second one fails during analysis. -/
def timelineThree : List TimelineItem := [itemBox1, itemFillet3, itemBox3]

/-- The analyzer output for `extrudeBox`. -/
noncomputable def extrudeBoxInfo : ExtrudeInfo := analyze_extrude_feature extrudeBox

/-! ## Theorems -/

/-! ### Character-level helper lemmas (ASCII) -/

lemma char_toNat_ofNat_small {n : ℕ} (h : n < 55296) : (Char.ofNat n).toNat = n := by
  have hv : n.isValidChar := Or.inl h
  simp [Char.ofNat, dif_pos hv, Char.ofNatAux, Char.toNat, UInt32.toNat]

lemma char_isDigit_iff {c : Char} : c.isDigit = true ↔ 48 ≤ c.toNat ∧ c.toNat ≤ 57 := by
  simp [Char.isDigit, UInt32.le_def, BitVec.le_def, UInt32.toNat, Char.toNat]

lemma char_isUpper_iff {c : Char} : c.isUpper = true ↔ 65 ≤ c.toNat ∧ c.toNat ≤ 90 := by
  simp [Char.isUpper, UInt32.le_def, BitVec.le_def, UInt32.toNat, Char.toNat]

lemma char_isLower_iff {c : Char} : c.isLower = true ↔ 97 ≤ c.toNat ∧ c.toNat ≤ 122 := by
  simp [Char.isLower, UInt32.le_def, BitVec.le_def, UInt32.toNat, Char.toNat]

lemma char_toLower_of_notUpper {c : Char} (h : ¬ c.isUpper = true) : c.toLower = c := by
  rw [char_isUpper_iff] at h
  rw [Char.toLower, if_neg]
  intro hc
  exact h ⟨hc.1, hc.2⟩

lemma char_toLower_of_upper {c : Char} (h : c.isUpper = true) :
    (c.toLower).toNat = c.toNat + 32 := by
  rw [char_isUpper_iff] at h
  rw [Char.toLower, if_pos ⟨h.1, h.2⟩]
  exact char_toNat_ofNat_small (by omega)

lemma char_toLower_isDigit (c : Char) : (c.toLower).isDigit = c.isDigit := by
  by_cases h : c.isUpper = true
  · have h2 := char_toLower_of_upper h
    rw [char_isUpper_iff] at h
    have hd1 : (c.toLower).isDigit = false := by
      rw [Bool.eq_false_iff]
      intro hd
      rw [char_isDigit_iff] at hd
      omega
    have hd2 : c.isDigit = false := by
      rw [Bool.eq_false_iff]
      intro hd
      rw [char_isDigit_iff] at hd
      omega
    rw [hd1, hd2]
  · rw [char_toLower_of_notUpper h]

lemma char_lower_fixes (c : Char) (h : isLowerAlnumUnd c = true) : c.toLower = c := by
  apply char_toLower_of_notUpper
  rw [char_isUpper_iff]
  simp only [isLowerAlnumUnd, Bool.or_eq_true, decide_eq_true_eq] at h
  rcases h with (h | h) | h
  · rw [char_isLower_iff] at h
    omega
  · rw [char_isDigit_iff] at h
    omega
  · subst h
    decide

lemma char_subst_lower_ok (c : Char) :
    isLowerAlnumUnd ((if c.isAlphanum || c = '_' then c else '_').toLower) = true := by
  by_cases hc : (c.isAlphanum || c = '_') = true
  · rw [if_pos hc]
    simp only [Bool.or_eq_true, Char.isAlphanum, Char.isAlpha, decide_eq_true_eq] at hc
    rcases hc with ((hu | hl) | hd) | hund
    · have h2 := char_toLower_of_upper hu
      rw [char_isUpper_iff] at hu
      simp only [isLowerAlnumUnd, Bool.or_eq_true]
      left; left
      rw [char_isLower_iff]
      omega
    · have hnu : ¬ c.isUpper = true := by
        rw [char_isUpper_iff]
        rw [char_isLower_iff] at hl
        omega
      rw [char_toLower_of_notUpper hnu]
      simp only [isLowerAlnumUnd, Bool.or_eq_true]
      left; left
      exact hl
    · have hnu : ¬ c.isUpper = true := by
        rw [char_isUpper_iff]
        rw [char_isDigit_iff] at hd
        omega
      rw [char_toLower_of_notUpper hnu]
      simp only [isLowerAlnumUnd, Bool.or_eq_true]
      left; right
      exact hd
    · subst hund
      decide
  · rw [if_neg hc]
    decide

lemma char_subst_fixes (c : Char) (h : isLowerAlnumUnd c = true) :
    (if c.isAlphanum || c = '_' then c else '_') = c := by
  rw [if_pos]
  simp only [isLowerAlnumUnd, Bool.or_eq_true, decide_eq_true_eq] at h
  simp only [Bool.or_eq_true, Char.isAlphanum, Char.isAlpha, decide_eq_true_eq]
  rcases h with (h | h) | h
  · exact Or.inl (Or.inl (Or.inr h))
  · exact Or.inl (Or.inr h)
  · exact Or.inr h

lemma prefixUnderscore_ne_nil {l : List Char} (h : l ≠ []) : prefixUnderscore l ≠ [] := by
  rcases l with _ | ⟨c, t⟩
  · exact absurd rfl h
  · rw [prefixUnderscore]
    split
    · simp
    · simp

lemma list_map_fix {α : Type} (f : α → α) :
    ∀ (l : List α), (∀ c ∈ l, f c = c) → l.map f = l := by
  intro l h
  induction l with
  | nil => rfl
  | cons a t ih =>
    rw [List.map_cons, h a (by simp)]
    rw [ih (fun c hc => h c (by simp [hc]))]

lemma mem_prefixUnderscore {l : List Char} {d : Char} (h : d ∈ prefixUnderscore l) :
    d = '_' ∨ d ∈ l := by
  rcases l with _ | ⟨c, t⟩
  · exact Or.inr h
  · rw [prefixUnderscore] at h
    by_cases hd : c.isDigit = true
    · rw [if_pos hd] at h
      rcases List.mem_cons.mp h with h1 | h1
      · exact Or.inl h1
      · exact Or.inr h1
    · rw [if_neg hd] at h
      exact Or.inr h

/-- C9: for every input string, `sanitize_name` returns only lowercase
alphanumerics and underscores; a non-empty input yields a non-empty result
that does not start with a digit; and `sanitize_name` is idempotent. -/
theorem sanitize_name_spec :
    (∀ (s : List Char), ∀ c ∈ sanitize_name s, isLowerAlnumUnd c = true)
    ∧ (∀ s : List Char, s ≠ [] → sanitize_name s ≠ [])
    ∧ (∀ (s : List Char) (c : Char) (cs : List Char),
        sanitize_name s = c :: cs → c.isDigit = false)
    ∧ (∀ s : List Char, sanitize_name (sanitize_name s) = sanitize_name s) := by
  have part1 : ∀ (s : List Char), ∀ c ∈ sanitize_name s, isLowerAlnumUnd c = true := by
    intro s c hc
    rw [sanitize_name, List.mem_map] at hc
    obtain ⟨d, hd, rfl⟩ := hc
    rcases mem_prefixUnderscore hd with h | h
    · subst h
      decide
    · rw [List.mem_map] at h
      obtain ⟨e, _, rfl⟩ := h
      exact char_subst_lower_ok e
  have part3 : ∀ (s : List Char) (c : Char) (cs : List Char),
      sanitize_name s = c :: cs → c.isDigit = false := by
    intro s c cs hc
    rw [sanitize_name] at hc
    rcases hl : s.map (fun c => if c.isAlphanum || c = '_' then c else '_') with _ | ⟨h0, t⟩
    · rw [hl] at hc
      simp [prefixUnderscore] at hc
    · rw [hl, prefixUnderscore] at hc
      split at hc
      · simp only [List.map_cons, List.cons.injEq] at hc
        rw [← hc.1]
        decide
      · rename_i hnd
        simp only [List.map_cons, List.cons.injEq] at hc
        rw [← hc.1, char_toLower_isDigit]
        exact Bool.not_eq_true _ ▸ hnd
  refine ⟨part1, ?_, part3, ?_⟩
  · intro s hs
    rw [sanitize_name]
    have h1 : s.map (fun c => if c.isAlphanum || c = '_' then c else '_') ≠ [] := by
      simpa using hs
    have h2 := prefixUnderscore_ne_nil h1
    simpa using h2
  · intro s
    set o := sanitize_name s with ho
    have hall : ∀ c ∈ o, isLowerAlnumUnd c = true := part1 s
    have hmap : o.map (fun c => if c.isAlphanum || c = '_' then c else '_') = o :=
      list_map_fix _ o (fun c hc => char_subst_fixes c (hall c hc))
    have hpre : prefixUnderscore o = o := by
      rcases he : o with _ | ⟨c, t⟩
      · rfl
      · rw [prefixUnderscore, if_neg]
        rw [part3 s c t (ho ▸ he)]
        simp
    rw [sanitize_name, hmap, hpre]
    exact list_map_fix _ o (fun c hc => char_lower_fixes c (hall c hc))

/-- Witness for C9 at concrete inputs. -/
theorem sanitize_name_spec_witness :
    isLowerAlnumUnd ('9') = true ∧ sanitize_name (("9Ab").toList) ≠ []
      ∧ Char.isDigit ('_') = false :=
  ⟨sanitize_name_spec.1 (("9Ab").toList) '9' (by decide),
   sanitize_name_spec.2.1 (("9Ab").toList) (by decide),
   sanitize_name_spec.2.2.1 (("9Ab").toList) '_' (("9ab").toList) (by decide)⟩

/-! ### Rounding helper lemmas -/

lemma pyRound_intCast (n : ℤ) : pyRound (n : ℚ) = n := by
  simp [pyRound, Int.floor_intCast]

lemma pyRound_sub_abs_le (q : ℚ) : |q - (pyRound q : ℚ)| ≤ 1/2 := by
  rw [pyRound]
  have h0 : (0:ℚ) ≤ q - ⌊q⌋ := sub_nonneg.2 (Int.floor_le q)
  have h1 : q - ⌊q⌋ < 1 := by
    have := Int.lt_floor_add_one q
    linarith
  split_ifs with ha hb hc
  · rw [abs_of_nonneg h0]
    linarith
  · rw [abs_of_nonpos (by push_cast; linarith)]
    push_cast
    linarith
  · rw [abs_of_nonneg h0]
    linarith
  · rw [abs_of_nonpos (by push_cast; linarith)]
    push_cast
    linarith

lemma pyRound_eq_of_near {q : ℚ} {m : ℤ} (h : |q - (m:ℚ)| < 1/2) : pyRound q = m := by
  obtain ⟨hlo, hhi⟩ := abs_lt.mp h
  by_cases hq : (m:ℚ) ≤ q
  · have hf : ⌊q⌋ = m := by
      rw [Int.floor_eq_iff]
      constructor
      · exact hq
      · linarith
    rw [pyRound, hf, if_pos (by linarith)]
  · have hf : ⌊q⌋ = m - 1 := by
      rw [Int.floor_eq_iff]
      push_cast
      constructor
      · linarith
      · linarith
    have hr1 : ¬ (q - ((m - 1 : ℤ) : ℚ) < 1/2) := by
      push_cast
      push_neg
      linarith
    have hr2 : 1/2 < q - ((m - 1 : ℤ) : ℚ) := by
      push_cast
      linarith
    rw [pyRound, hf, if_neg hr1, if_pos hr2]
    omega

lemma fixed4_congr {a b : ℚ} (h : pyRound (a * 10000) = pyRound (b * 10000)) :
    fixed4 a = fixed4 b := by
  rw [fixed4, fixed4, h]

/-- C8: `format_value` renders values within `0.0001` of a whole number as the
bare integer, every other value as 4-decimal fixed point with trailing zeros
and a trailing decimal point stripped, and re-formatting the value denoted by
an emitted string reproduces the same string. -/
theorem format_value_spec :
    (∀ v : ℚ, |v - (pyRound v : ℚ)| < 0.0001 → format_value v = intStr (pyRound v))
    ∧ (∀ v : ℚ, ¬ |v - (pyRound v : ℚ)| < 0.0001 →
        format_value v = rstripChar '.' (rstripChar '0' (fixed4 v)))
    ∧ (∀ v : ℚ, format_value (canonicalValue v) = format_value v)
    ∧ format_value 3 = "3" ∧ format_value (5/2) = "2.5" := by
  refine ⟨?_, ?_, ?_, ?_, ?_⟩
  · intro v h
    rw [format_value, if_pos h]
  · intro v h
    rw [format_value, if_neg h]
  · intro v
    by_cases h : |v - (pyRound v : ℚ)| < 0.0001
    · rw [canonicalValue, if_pos h]
      have hL : format_value ((pyRound v : ℤ) : ℚ) = intStr (pyRound v) := by
        rw [format_value, pyRound_intCast]
        rw [if_pos (by norm_num)]
      rw [hL, format_value, if_pos h]
    · rw [canonicalValue, if_neg h]
      set n := pyRound (v * 10000) with hn
      have hqmul : ((n:ℚ)/10000) * 10000 = (n:ℚ) := by field_simp
      have hA : pyRound (((n:ℚ)/10000) * 10000) = n := by rw [hqmul, pyRound_intCast]
      have hB : ¬ |((n:ℚ)/10000) - (pyRound ((n:ℚ)/10000) : ℚ)| < 0.0001 := by
        intro hlt
        set m := pyRound ((n:ℚ)/10000) with hm
        obtain ⟨hl1, hl2⟩ := abs_lt.mp hlt
        have e : (n:ℚ) - 10000*(m:ℚ) = ((n:ℚ)/10000 - (m:ℚ)) * 10000 := by ring
        have h3 : -(1:ℚ) < (n:ℚ) - 10000*(m:ℚ) ∧ (n:ℚ) - 10000*(m:ℚ) < 1 := by
          constructor
          · rw [e]
            nlinarith
          · rw [e]
            nlinarith
        have h4 : n - 10000 * m = 0 := by
          have hc : |((n - 10000*m : ℤ) : ℚ)| < 1 := by
            push_cast
            rw [abs_lt]
            exact ⟨h3.1, h3.2⟩
          have hc2 : |n - 10000*m| < 1 := by exact_mod_cast hc
          have hc3 := abs_lt.mp hc2
          omega
        have h5 : (n:ℚ)/10000 = (m:ℚ) := by
          have hnm : n = 10000 * m := by omega
          rw [hnm]
          push_cast
          field_simp
        have h6 : |v * 10000 - (n:ℚ)| ≤ 1/2 := hn ▸ pyRound_sub_abs_le (v * 10000)
        have h7 : |v - (m:ℚ)| ≤ 1/20000 := by
          rw [← h5]
          have e2 : v - (n:ℚ)/10000 = (v * 10000 - (n:ℚ))/10000 := by ring
          rw [e2, abs_div, abs_of_pos (show (0:ℚ) < 10000 by norm_num)]
          linarith
        have h8 : pyRound v = m := pyRound_eq_of_near (lt_of_le_of_lt h7 (by norm_num))
        apply h
        rw [h8]
        calc |v - (m:ℚ)| ≤ 1/20000 := h7
          _ < 0.0001 := by norm_num
      rw [format_value, if_neg hB, format_value, if_neg h]
      rw [fixed4_congr (a := (n:ℚ)/10000) (b := v) (by rw [hA, hn])]
  · have h1 : pyRound 3 = 3 := by norm_num [pyRound]
    rw [format_value, h1]
    rw [if_pos (by norm_num)]
    decide
  · have h1 : pyRound (5/2) = 2 := by norm_num [pyRound]
    have h2 : pyRound (5/2 * 10000) = 25000 := by norm_num [pyRound]
    rw [format_value, h1, if_neg (by rw [not_lt, le_abs]; norm_num), fixed4]
    simp only [h2]
    decide

/-- Witness for C8 at concrete inputs. -/
theorem format_value_spec_witness :
    (|(3:ℚ) - (pyRound 3 : ℚ)| < 0.0001 ∧ format_value 3 = intStr (pyRound 3))
    ∧ (¬ |(5/2 : ℚ) - (pyRound (5/2) : ℚ)| < 0.0001
       ∧ format_value (5/2) = rstripChar '.' (rstripChar '0' (fixed4 (5/2)))) := by
  have h1 : |(3:ℚ) - (pyRound 3 : ℚ)| < 0.0001 := by
    rw [show pyRound 3 = 3 from by norm_num [pyRound]]
    norm_num
  have h2 : ¬ |(5/2 : ℚ) - (pyRound (5/2) : ℚ)| < 0.0001 := by
    rw [show pyRound (5/2) = 2 from by norm_num [pyRound]]
    rw [not_lt, le_abs]
    norm_num
  exact ⟨⟨h1, format_value_spec.1 3 h1⟩, ⟨h2, format_value_spec.2.1 (5/2) h2⟩⟩

/-- C10: `normal_to_rotation` is total and guarded against degenerate input:
a vector whose norm is below `0.0001` yields `(0, 0, 0)` without reaching the
normalizing division; the divided (normalized) form only appears when the norm
is at least `0.0001`; and the third component of the result is always `0`. -/
theorem normal_to_rotation_spec :
    (∀ nx ny nz : ℝ, Real.sqrt (nx * nx + ny * ny + nz * nz) < 0.0001 →
        normal_to_rotation nx ny nz = (0, 0, 0))
    ∧ (∀ nx ny nz : ℝ, ¬ Real.sqrt (nx * nx + ny * ny + nz * nz) < 0.0001 →
        normal_to_rotation nx ny nz =
          (degrees (pyAtan2 (ny / Real.sqrt (nx * nx + ny * ny + nz * nz))
              (nz / Real.sqrt (nx * nx + ny * ny + nz * nz))),
           degrees (Real.arcsin (-(nx / Real.sqrt (nx * nx + ny * ny + nz * nz)))),
           0))
    ∧ (∀ nx ny nz : ℝ, (normal_to_rotation nx ny nz).2.2 = 0) := by
  refine ⟨?_, ?_, ?_⟩
  · intro nx ny nz h
    simp only [normal_to_rotation]
    rw [if_pos h]
  · intro nx ny nz h
    simp only [normal_to_rotation]
    rw [if_neg h]
  · intro nx ny nz
    simp only [normal_to_rotation]
    split
    · rfl
    · rfl

/-- Witness for C10 at concrete inputs. -/
theorem normal_to_rotation_spec_witness :
    (Real.sqrt ((0:ℝ) * 0 + 0 * 0 + 0 * 0) < 0.0001
      ∧ normal_to_rotation 0 0 0 = (0, 0, 0))
    ∧ (¬ Real.sqrt ((1:ℝ) * 1 + 0 * 0 + 0 * 0) < 0.0001
      ∧ normal_to_rotation 1 0 0 =
          (degrees (pyAtan2 ((0:ℝ) / Real.sqrt ((1:ℝ) * 1 + 0 * 0 + 0 * 0))
              ((0:ℝ) / Real.sqrt ((1:ℝ) * 1 + 0 * 0 + 0 * 0))),
           degrees (Real.arcsin (-((1:ℝ) / Real.sqrt ((1:ℝ) * 1 + 0 * 0 + 0 * 0)))),
           0)) := by
  have h1 : Real.sqrt ((0:ℝ) * 0 + 0 * 0 + 0 * 0) < 0.0001 := by
    rw [show ((0:ℝ) * 0 + 0 * 0 + 0 * 0) = 0 by norm_num, Real.sqrt_zero]
    norm_num
  have h2 : ¬ Real.sqrt ((1:ℝ) * 1 + 0 * 0 + 0 * 0) < 0.0001 := by
    rw [show ((1:ℝ) * 1 + 0 * 0 + 0 * 0) = 1 by norm_num, Real.sqrt_one]
    norm_num
  exact ⟨⟨h1, normal_to_rotation_spec.1 0 0 0 h1⟩,
    ⟨h2, normal_to_rotation_spec.2.1 1 0 0 h2⟩⟩

/-! ### Fold lemmas for `extract_profile_polygon` -/

lemma extractLoopStep_eq (segs : ℕ) (r : PolyResult) (l : ProfileLoop) :
    extractLoopStep segs r l =
      if l.isOuter then { r with outer := loopCleanedPoints segs l }
      else { r with holes := r.holes ++ [loopCleanedPoints segs l] } := rfl

lemma extractFold_holes (segs : ℕ) (loops : List ProfileLoop) :
    ∀ acc : PolyResult, (loops.foldl (extractLoopStep segs) acc).holes
      = acc.holes ++ (loops.filter (fun l => !l.isOuter)).map (loopCleanedPoints segs) := by
  induction loops with
  | nil =>
    intro acc
    simp
  | cons l t ih =>
    intro acc
    rw [List.foldl_cons, List.filter_cons, extractLoopStep_eq]
    cases hl : l.isOuter
    · simp only [hl, Bool.not_false, if_true, if_false]
      rw [ih]
      simp
    · simp only [hl, Bool.not_true, if_true, if_false]
      rw [ih]
      simp

lemma extractFold_outer (segs : ℕ) (loops : List ProfileLoop) :
    ∀ acc : PolyResult, (loops.foldl (extractLoopStep segs) acc).outer
      = (loops.filter (fun l => l.isOuter)).foldl
          (fun _ l => loopCleanedPoints segs l) acc.outer := by
  induction loops with
  | nil =>
    intro acc
    simp
  | cons l t ih =>
    intro acc
    rw [List.foldl_cons, extractLoopStep_eq]
    cases hl : l.isOuter
    · simp [hl, ih]
    · simp [hl, ih]

/-- C7: duplicate-point removal collapses the second of two consecutive points
at Euclidean distance at most `0.001` and keeps both beyond `0.001`; and
`extract_profile_polygon` applies it exactly once per assembled loop, to the
concatenation of that loop's per-curve point runs (`loopCleanedPoints`), so
curve join points are deduplicated too. -/
theorem remove_duplicate_points_spec :
    (∀ p q : ℝ × ℝ, Real.sqrt ((q.1 - p.1) ^ 2 + (q.2 - p.2) ^ 2) ≤ 0.001 →
        remove_duplicate_points 0.001 [p, q] = [p])
    ∧ (∀ p q : ℝ × ℝ, 0.001 < Real.sqrt ((q.1 - p.1) ^ 2 + (q.2 - p.2) ^ 2) →
        remove_duplicate_points 0.001 [p, q] = [p, q])
    ∧ (∀ (profile : Profile) (segs : ℕ),
        (extract_profile_polygon profile segs).holes =
          (profile.loops.filter (fun l => !l.isOuter)).map (loopCleanedPoints segs))
    ∧ (∀ (profile : Profile) (segs : ℕ),
        (extract_profile_polygon profile segs).outer =
          (profile.loops.filter (fun l => l.isOuter)).foldl
            (fun _ l => loopCleanedPoints segs l) []) := by
  refine ⟨?_, ?_, ?_, ?_⟩
  · intro p q h
    simp only [remove_duplicate_points, rdpAux]
    rw [if_neg (not_lt.mpr h)]
  · intro p q h
    simp only [remove_duplicate_points, rdpAux]
    rw [if_pos h]
  · intro profile segs
    rw [extract_profile_polygon, extractFold_holes]
    simp
  · intro profile segs
    rw [extract_profile_polygon, extractFold_outer]

/-- Witness for C7 at concrete inputs. -/
theorem remove_duplicate_points_spec_witness :
    remove_duplicate_points 0.001 [((0:ℝ), (0:ℝ)), ((0:ℝ), (0:ℝ))] = [((0:ℝ), (0:ℝ))]
    ∧ remove_duplicate_points 0.001 [((0:ℝ), (0:ℝ)), ((1:ℝ), (0:ℝ))]
        = [((0:ℝ), (0:ℝ)), ((1:ℝ), (0:ℝ))] := by
  constructor
  · apply remove_duplicate_points_spec.1
    have e : ((((0:ℝ), (0:ℝ)).1 - ((0:ℝ), (0:ℝ)).1) ^ 2
        + (((0:ℝ), (0:ℝ)).2 - ((0:ℝ), (0:ℝ)).2) ^ 2) = 0 := by norm_num
    rw [e, Real.sqrt_zero]
    norm_num
  · apply remove_duplicate_points_spec.2.1
    have e : ((((1:ℝ), (0:ℝ)).1 - ((0:ℝ), (0:ℝ)).1) ^ 2
        + (((1:ℝ), (0:ℝ)).2 - ((0:ℝ), (0:ℝ)).2) ^ 2) = 1 := by norm_num
    rw [e, Real.sqrt_one]
    norm_num

/-! ### Shape-classification lemmas -/

lemma detect_shape_singleLoop (p : Profile) (loop : ProfileLoop)
    (hp : p.loops = [loop]) :
    detect_shape_type p = detectSingleLoop p loop.curves := by
  simp only [detect_shape_type, hp]

lemma detectSingleLoop_rect (p : Profile) (curves : List SketchEnt)
    (hlen : curves.length = 4) (hall : curves.all isLine = true) :
    detectSingleLoop p curves = ShapeResult.rectangle (bboxCenter p.boundingBox)
      (bboxWidth p.boundingBox) (bboxHeight p.boundingBox) := by
  rcases curves with _ | ⟨a, _ | ⟨b, t⟩⟩
  · simp at hlen
  · simp at hlen
  · simp only [detectSingleLoop]
    rw [if_pos ⟨hlen, hall⟩]

lemma detectSingleLoop_rounded (p : Profile) (curves : List SketchEnt)
    (hlen : curves.length = 8)
    (hl4 : (curves.filter isLine).length = 4)
    (ha4 : (curves.filter isArc).length = 4)
    (hspread : listMax ((curves.filter isArc).map (fun e => arcRadius e * CM_TO_MM))
      - listMin ((curves.filter isArc).map (fun e => arcRadius e * CM_TO_MM)) < 0.01) :
    detectSingleLoop p curves = ShapeResult.rounded_rect (bboxCenter p.boundingBox)
      (bboxWidth p.boundingBox) (bboxHeight p.boundingBox)
      (((curves.filter isArc).map (fun e => arcRadius e * CM_TO_MM)).headD 0) := by
  rcases curves with _ | ⟨a, _ | ⟨b, t⟩⟩
  · simp at hlen
  · simp at hlen
  · simp only [detectSingleLoop]
    rw [if_neg (by rintro ⟨h4, _⟩; omega), if_pos hlen, if_pos ⟨hl4, ha4⟩, if_pos hspread]

lemma detectSingleLoop_poly (p : Profile) (curves : List SketchEnt)
    (h1 : curves.length ≠ 1) (h4 : curves.length ≠ 4) (h8 : curves.length ≠ 8) :
    detectSingleLoop p curves = ShapeResult.polygon := by
  rcases curves with _ | ⟨a, _ | ⟨b, t⟩⟩
  · simp only [detectSingleLoop]
    rw [if_neg (by rintro ⟨hc, _⟩; simp at hc), if_neg (by simp)]
  · simp at h1
  · simp only [detectSingleLoop]
    rw [if_neg (by rintro ⟨hc, _⟩; exact h4 hc), if_neg h8]

/-- C5: shape classification is total and first-match: a profile without
exactly one loop is a polygon; a single loop that is one full circle entity is
a circle; exactly 4 curves that are all lines is a rectangle with center and
dimensions from the bounding box; exactly 8 curves splitting into 4 lines and
4 arcs whose radii spread less than `0.01` is a rounded rectangle with the
rounding taken from the arc radii; any other curve count is a polygon; every
profile yields exactly one of the four variants (`analyze_profile`'s `shape`
string likewise), so classification never fails. -/
theorem detect_shape_type_spec :
    (∀ p : Profile, p.loops.length ≠ 1 → detect_shape_type p = ShapeResult.polygon)
    ∧ (∀ (p : Profile) (loop : ProfileLoop) (c : ℚ × ℚ) (r : ℚ),
        p.loops = [loop] → loop.curves = [SketchEnt.circle c r] →
        detect_shape_type p
          = ShapeResult.circle (c.1 * CM_TO_MM, c.2 * CM_TO_MM) (r * CM_TO_MM))
    ∧ (∀ (p : Profile) (loop : ProfileLoop),
        p.loops = [loop] → loop.curves.length = 4 → loop.curves.all isLine = true →
        detect_shape_type p = ShapeResult.rectangle (bboxCenter p.boundingBox)
          (bboxWidth p.boundingBox) (bboxHeight p.boundingBox))
    ∧ (∀ (p : Profile) (loop : ProfileLoop),
        p.loops = [loop] → loop.curves.length = 8 →
        (loop.curves.filter isLine).length = 4 →
        (loop.curves.filter isArc).length = 4 →
        listMax ((loop.curves.filter isArc).map (fun e => arcRadius e * CM_TO_MM))
          - listMin ((loop.curves.filter isArc).map (fun e => arcRadius e * CM_TO_MM))
          < 0.01 →
        detect_shape_type p = ShapeResult.rounded_rect (bboxCenter p.boundingBox)
          (bboxWidth p.boundingBox) (bboxHeight p.boundingBox)
          (((loop.curves.filter isArc).map (fun e => arcRadius e * CM_TO_MM)).headD 0))
    ∧ (∀ (p : Profile) (loop : ProfileLoop),
        p.loops = [loop] → loop.curves.length ≠ 1 → loop.curves.length ≠ 4 →
        loop.curves.length ≠ 8 → detect_shape_type p = ShapeResult.polygon)
    ∧ (∀ p : Profile, detect_shape_type p = ShapeResult.polygon ∨
        (∃ c r, detect_shape_type p = ShapeResult.circle c r) ∨
        (∃ c w h, detect_shape_type p = ShapeResult.rectangle c w h) ∨
        (∃ c w h rd, detect_shape_type p = ShapeResult.rounded_rect c w h rd))
    ∧ (∀ p : Profile, (analyze_profile p).shape = "circle"
        ∨ (analyze_profile p).shape = "rectangle"
        ∨ (analyze_profile p).shape = "rounded_rect"
        ∨ (analyze_profile p).shape = "polygon") := by
  refine ⟨?_, ?_, ?_, ?_, ?_, ?_, ?_⟩
  · intro p h
    rcases hp : p.loops with _ | ⟨l1, _ | ⟨l2, t⟩⟩
    · simp only [detect_shape_type, hp]
    · rw [hp] at h
      simp at h
    · simp only [detect_shape_type, hp]
  · intro p loop c r hp hc
    rw [detect_shape_singleLoop p loop hp, hc]
    simp only [detectSingleLoop]
  · intro p loop hp hlen hall
    rw [detect_shape_singleLoop p loop hp]
    exact detectSingleLoop_rect p loop.curves hlen hall
  · intro p loop hp hlen hl4 ha4 hspread
    rw [detect_shape_singleLoop p loop hp]
    exact detectSingleLoop_rounded p loop.curves hlen hl4 ha4 hspread
  · intro p loop hp h1 h4 h8
    rw [detect_shape_singleLoop p loop hp]
    exact detectSingleLoop_poly p loop.curves h1 h4 h8
  · intro p
    cases hd : detect_shape_type p with
    | circle c r => exact Or.inr (Or.inl ⟨c, r, rfl⟩)
    | rectangle c w h => exact Or.inr (Or.inr (Or.inl ⟨c, w, h, rfl⟩))
    | rounded_rect c w h rd => exact Or.inr (Or.inr (Or.inr ⟨c, w, h, rd, rfl⟩))
    | polygon => exact Or.inl rfl
  · intro p
    simp only [analyze_profile]
    split
    · split
      · simp
      · split_ifs <;> simp
    · simp

/-- Witness for C5: the 4-line square of side 10 centered at the origin
classifies as a rectangle with center `(0, 0)`, width 10 and height 10. -/
theorem detect_shape_type_spec_witness :
    detect_shape_type squareProfile = ShapeResult.rectangle (0, 0) 10 10 := by
  have h3 := detect_shape_type_spec.2.2.1 squareProfile ⟨true, squareCurves⟩
    (by rfl) (by decide) (by decide)
  rw [h3]
  norm_num [bboxCenter, bboxWidth, bboxHeight, CM_TO_MM, squareProfile]

/-! ### Boolean-tree assembly (C3) -/

/-- C3: the final tree assembly follows the fixed rule exactly: a non-empty
difference bucket yields a `difference` block containing first (only when the
union bucket is non-empty) a `union` block wrapping the union fragments and
then the difference fragments; otherwise a non-empty union bucket is wrapped
in an explicit `union` block exactly when it has more than 3 fragments
(5 fragments are wrapped, 2 are emitted unwrapped). -/
theorem combineOps_spec :
    (∀ u d i : List String, d ≠ [] →
        combineOps ⟨u, d, i⟩ =
          ["difference() \x7b"]
            ++ (if u ≠ [] then
                  ["    union() \x7b"] ++ u.map (fun line => "        " ++ line)
                    ++ ["    \x7d"]
                else [])
            ++ d.map (fun line => "    " ++ line) ++ ["\x7d"])
    ∧ (∀ u i : List String, u ≠ [] → 3 < u.length →
        combineOps ⟨u, [], i⟩
          = ["union() \x7b"] ++ u.map (fun line => "    " ++ line) ++ ["\x7d"])
    ∧ (∀ u i : List String, u ≠ [] → u.length ≤ 3 → combineOps ⟨u, [], i⟩ = u)
    ∧ (∀ i : List String, combineOps ⟨["a", "b", "c", "d", "e"], [], i⟩
        = ["union() \x7b", "    a", "    b", "    c", "    d", "    e", "\x7d"])
    ∧ (∀ i : List String, combineOps ⟨["a", "b"], [], i⟩ = ["a", "b"]) := by
  refine ⟨?_, ?_, ?_, ?_, ?_⟩
  · intro u d i hd
    simp only [combineOps]
    rw [if_pos hd]
  · intro u i hu hlen
    simp only [combineOps]
    rw [if_neg (by simp), if_pos hu, if_pos hlen]
  · intro u i hu hlen
    simp only [combineOps]
    rw [if_neg (by simp), if_pos hu, if_neg (by omega)]
  · intro i
    simp only [combineOps]
    decide
  · intro i
    simp only [combineOps]
    decide

/-- Witness for C3 at concrete buckets. -/
theorem combineOps_spec_witness :
    combineOps ⟨["a"], ["b"], []⟩ =
      ["difference() \x7b"]
        ++ (if (["a"] : List String) ≠ [] then
              ["    union() \x7b"]
                ++ (["a"] : List String).map (fun line => "        " ++ line)
                ++ ["    \x7d"]
            else [])
        ++ (["b"] : List String).map (fun line => "    " ++ line) ++ ["\x7d"]
    ∧ combineOps ⟨["a", "b"], [], []⟩ = ["a", "b"] :=
  ⟨combineOps_spec.1 ["a"] ["b"] [] (by decide),
   combineOps_spec.2.2.1 ["a", "b"] [] (by decide) (by decide)⟩

/-! ### Pass-2 routing (C4) -/

lemma pass2Buckets_snoc (feats : List FeatureData) (fd : FeatureData)
    (ftb : List (ℕ × String)) (bm : List (String × Modifiers)) :
    pass2Buckets (feats ++ [fd]) ftb bm
      = pass2Step ftb bm (pass2Buckets feats ftb bm) (feats.length, fd) := by
  rw [pass2Buckets, pass2Buckets, List.enum_append, List.foldl_append]
  rfl

/-- C4: pass 2 routes every generated fragment into exactly one bucket by its
operation kind — extrude `new`/`union` into the union bucket, extrude
`difference` into the difference bucket, extrude `intersection` into the
intersection bucket, every revolve into the union bucket, every hole into the
difference bucket — and the intersection bucket is never merged into the
assembled tree. -/
theorem pass2_routing_spec :
    (∀ (feats : List FeatureData) (ftb : List (ℕ × String))
        (bm : List (String × Modifiers)) (name : String) (info : ExtrudeInfo),
        info.operation = "new" ∨ info.operation = "union" →
        pass2Buckets (feats ++ [FeatureData.extrude name info]) ftb bm
          = { union := (pass2Buckets feats ftb bm).union
                ++ extrudeFragment ftb bm feats.length name info,
              difference := (pass2Buckets feats ftb bm).difference,
              intersection := (pass2Buckets feats ftb bm).intersection })
    ∧ (∀ feats ftb bm name info, info.operation = "difference" →
        pass2Buckets (feats ++ [FeatureData.extrude name info]) ftb bm
          = { union := (pass2Buckets feats ftb bm).union,
              difference := (pass2Buckets feats ftb bm).difference
                ++ extrudeFragment ftb bm feats.length name info,
              intersection := (pass2Buckets feats ftb bm).intersection })
    ∧ (∀ feats ftb bm name info, info.operation = "intersection" →
        pass2Buckets (feats ++ [FeatureData.extrude name info]) ftb bm
          = { union := (pass2Buckets feats ftb bm).union,
              difference := (pass2Buckets feats ftb bm).difference,
              intersection := (pass2Buckets feats ftb bm).intersection
                ++ extrudeFragment ftb bm feats.length name info })
    ∧ (∀ (feats : List FeatureData) (ftb : List (ℕ × String))
        (bm : List (String × Modifiers)) (name : String) (info : RevolveInfo),
        pass2Buckets (feats ++ [FeatureData.revolve name info]) ftb bm
          = { union := (pass2Buckets feats ftb bm).union
                ++ generate_revolve_scad info name,
              difference := (pass2Buckets feats ftb bm).difference,
              intersection := (pass2Buckets feats ftb bm).intersection })
    ∧ (∀ (feats : List FeatureData) (ftb : List (ℕ × String))
        (bm : List (String × Modifiers)) (name : String) (info : HoleInfo),
        pass2Buckets (feats ++ [FeatureData.hole name info]) ftb bm
          = { union := (pass2Buckets feats ftb bm).union,
              difference := (pass2Buckets feats ftb bm).difference
                ++ generate_hole_scad info name,
              intersection := (pass2Buckets feats ftb bm).intersection })
    ∧ (∀ u d i j : List String, combineOps ⟨u, d, i⟩ = combineOps ⟨u, d, j⟩) := by
  refine ⟨?_, ?_, ?_, ?_, ?_, ?_⟩
  · intro feats ftb bm name info h
    rw [pass2Buckets_snoc]
    simp only [pass2Step]
    rw [if_pos h]
  · intro feats ftb bm name info h
    rw [pass2Buckets_snoc]
    simp only [pass2Step]
    rw [if_neg (by rw [h]; rintro (hc | hc) <;> simp at hc), if_pos h]
  · intro feats ftb bm name info h
    rw [pass2Buckets_snoc]
    simp only [pass2Step]
    rw [if_neg (by rw [h]; rintro (hc | hc) <;> simp at hc),
      if_neg (by rw [h]; intro hc; simp at hc), if_pos h]
  · intro feats ftb bm name info
    rw [pass2Buckets_snoc]
    rfl
  · intro feats ftb bm name info
    rw [pass2Buckets_snoc]
    rfl
  · intro u d i j
    simp only [combineOps]

/-- Witness for C4 at a concrete extrude feature with operation `new`. -/
theorem pass2_routing_spec_witness :
    (extrudeBoxInfo.operation = "new" ∨ extrudeBoxInfo.operation = "union")
    ∧ pass2Buckets ([] ++ [FeatureData.extrude ("Box1") extrudeBoxInfo]) [] []
        = { union := (pass2Buckets [] [] []).union
              ++ extrudeFragment [] [] (List.length ([] : List FeatureData))
                  ("Box1") extrudeBoxInfo,
            difference := (pass2Buckets [] [] []).difference,
            intersection := (pass2Buckets [] [] []).intersection } := by
  have h : extrudeBoxInfo.operation = "new" ∨ extrudeBoxInfo.operation = "union" :=
    Or.inl rfl
  exact ⟨h, pass2_routing_spec.1 [] [] [] ("Box1") extrudeBoxInfo h⟩

/-! ### Pass-1 error recovery (C6) and the body-modifier key bug (C1, C2) -/

lemma registerFold_errors (bodies : List Body) (idx : ℕ) :
    ∀ st : Pass1State,
      (bodies.foldl (fun s b => registerBody s idx b) st).errors = st.errors := by
  induction bodies with
  | nil =>
    intro st
    rfl
  | cons b t ih =>
    intro st
    rw [List.foldl_cons, ih]
    rfl

lemma pass1Step_errors_extend (st : Pass1State) (item : TimelineItem) :
    ∃ tail, (pass1Step st item).errors = st.errors ++ tail := by
  rcases h : item.entity with _ | ent
  · exact ⟨[], by simp [pass1Step, h]⟩
  · cases ent with
    | extrude f =>
      refine ⟨[], ?_⟩
      simp only [pass1Step, h, registerFold_errors]
      simp
    | revolve f =>
      refine ⟨[], ?_⟩
      simp only [pass1Step, h, registerFold_errors]
      simp
    | hole f => exact ⟨[], by simp [pass1Step, h]⟩
    | fillet f =>
      exact ⟨["// Error analyzing " ++ item.name ++ ": \x27affected_body_names\x27"],
        by simp [pass1Step, h]⟩
    | chamfer f =>
      exact ⟨["// Error analyzing " ++ item.name ++ ": \x27affected_body_names\x27"],
        by simp [pass1Step, h]⟩
    | sketch => exact ⟨[], by simp [pass1Step, h]⟩
    | otherEntity => exact ⟨[], by simp [pass1Step, h]⟩

lemma pass1_mem_errors (t : List TimelineItem) :
    ∀ (st : Pass1State) (e : String), e ∈ st.errors →
      e ∈ (t.foldl pass1Step st).errors := by
  induction t with
  | nil =>
    intro st e he
    exact he
  | cons x r ih =>
    intro st e he
    rw [List.foldl_cons]
    apply ih
    obtain ⟨tail, htail⟩ := pass1Step_errors_extend st x
    rw [htail]
    exact List.mem_append_left _ he

lemma pass1_fillet_comment (t : List TimelineItem) :
    ∀ (st : Pass1State) (item : TimelineItem), item ∈ t →
      (∃ f, item.entity = some (TimelineEntity.fillet f)) →
      ("// Error analyzing " ++ item.name ++ ": \x27affected_body_names\x27")
        ∈ (t.foldl pass1Step st).errors := by
  induction t with
  | nil =>
    intro st item hmem
    simp at hmem
  | cons x r ih =>
    intro st item hmem hf
    rw [List.foldl_cons]
    rcases List.mem_cons.mp hmem with heq | hmem2
    · subst heq
      apply pass1_mem_errors
      obtain ⟨f, hf⟩ := hf
      simp [pass1Step, hf]
    · exact ih (pass1Step st x) item hmem2 hf

/-- C6: per-feature failures are local and recoverable: whenever a timeline
item's analysis raises (as every fillet item does, via the
`KeyError('affected_body_names')` of pass 1), the output still contains a
comment line referencing that feature's name; and for the concrete timeline
of three features whose second fails during analysis, the compiler still
returns a complete output containing the surviving features' fragments plus
exactly that one comment line. -/
theorem process_timeline_partial_failure :
    (∀ (t : List TimelineItem) (item : TimelineItem), item ∈ t →
        (∃ f, item.entity = some (TimelineEntity.fillet f)) →
        ("// Error analyzing " ++ item.name ++ ": \x27affected_body_names\x27")
          ∈ process_timeline t)
    ∧ process_timeline timelineThree
        = ["// Error analyzing Fillet1: \x27affected_body_names\x27",
           "extrude Box1", "extrude Box3"]
    ∧ ("extrude Box1") ∈ process_timeline timelineThree
    ∧ ("extrude Box3") ∈ process_timeline timelineThree := by
  refine ⟨?_, by decide, by decide, by decide⟩
  intro t item hmem hf
  simp only [process_timeline]
  apply List.mem_append_left
  exact pass1_fillet_comment t ⟨[], [], [], []⟩ item hmem hf

/-- Witness for C6: the fillet item of the three-feature timeline. -/
theorem process_timeline_partial_failure_witness :
    itemFillet3 ∈ timelineThree
    ∧ ("// Error analyzing " ++ itemFillet3.name ++ ": \x27affected_body_names\x27")
        ∈ process_timeline timelineThree := by
  have hmem : itemFillet3 ∈ timelineThree := by
    rw [timelineThree]
    exact List.mem_cons_of_mem _ (List.mem_cons_self _ _)
  exact ⟨hmem, process_timeline_partial_failure.1 timelineThree itemFillet3 hmem
    ⟨filletRadius3, rfl⟩⟩

/-- C1 (refuting the claimed key discipline, a code bug): the fillet analyzer
records `edge.body.entityToken` values — not body names — under the dict key
`affected_bodies`, while pass 1 reads the never-written key
`affected_body_names`; so processing any fillet raises `KeyError`, records an
error comment, and stores nothing into the body-modifier table (the table
keeps only the default entry registered by the extrude under the body name). -/
theorem fillet_identity_bug :
    (analyze_fillet_feature filletRadius3).affected_bodies = ["TOKEN-1"]
    ∧ bodyOne.name = "Body1"
    ∧ ¬ (analyze_fillet_feature filletRadius3).affected_bodies = [bodyOne.name]
    ∧ (pass1 timelineFillet).errors
        = ["// Error analyzing Fillet1: \x27affected_body_names\x27"]
    ∧ alGet (pass1 timelineFillet).bodyModifiers ("Body1") = some defaultModifiers := by
  refine ⟨by decide, by decide, by decide, by decide, by decide⟩

/-- C2 (refuting max-merge accumulation, a code bug): with an extrude creating
`Body1` followed by fillets of radius 1 mm and 3 mm on it, pass 1 leaves the
body's accumulated rounding at 0 — not `max 1 3` — because each fillet's
processing raises `KeyError('affected_body_names')` before the max-merge
(core.py line 149) can run, leaving only two error comments. -/
theorem modifier_merge_bug :
    (analyze_fillet_feature filletRadius1).radius = 1
    ∧ (analyze_fillet_feature filletRadius3).radius = 3
    ∧ (alGet (pass1 timelineTwoFillets).bodyModifiers ("Body1")).map Modifiers.rounding
        = some 0
    ∧ ¬ (alGet (pass1 timelineTwoFillets).bodyModifiers ("Body1")).map
          Modifiers.rounding = some (max 1 3)
    ∧ (pass1 timelineTwoFillets).errors
        = ["// Error analyzing Fillet2: \x27affected_body_names\x27",
           "// Error analyzing Fillet1: \x27affected_body_names\x27"] := by
  have hmax : max (1:ℚ) 3 = 3 := by norm_num
  refine ⟨?_, ?_, by decide, ?_, by decide⟩
  · norm_num [analyze_fillet_feature, filletRadius1, CM_TO_MM, setAdd, filletEdge]
  · norm_num [analyze_fillet_feature, filletRadius3, CM_TO_MM, setAdd, filletEdge]
  · rw [hmax]
    decide
